import Mathlib

/-!
Shallow embedding of `servicediscovery/discovery.go` (package `servicediscovery`
of sschum/lib-servicediscovery) and verification of its specification.

The DNS transport (`DnsClient.Exchange` from miekg/dns) is an external
collaborator; it is modelled as an explicit function parameter from a question
and a server address to an exchange outcome.  Every embedded operation
additionally returns the list of DNS questions it sent over the transport, so
that properties about the number of issued queries can be stated.  The Go slice
expression `srv.Target[:len(srv.Target)-1]`, which panics on an empty string,
is modelled by an `Option`-valued function; a panic of the surrounding
operation is modelled by the operation returning `none`.  Go byte-slicing is
modelled at character level, which coincides with the source for ASCII DNS
names.
-/

namespace Servicediscovery

/-- DNS response code `dns.RcodeSuccess` from miekg/dns. -/
def RcodeSuccess : Nat := 0

/-- DNS record type `dns.TypeA` from miekg/dns. -/
def TypeA : Nat := 1

/-- DNS record type `dns.TypeSRV` from miekg/dns. -/
def TypeSRV : Nat := 33

/-- An IPv4 address (`net.IP` holding four octets). -/
structure IP4 where
  b0 : Nat
  b1 : Nat
  b2 : Nat
  b3 : Nat
deriving DecidableEq, Repr

/-- Dotted-decimal rendering of an IPv4 address, modelling `net.IP.String()`
on a four-octet address. -/
def IP4.render (ip : IP4) : String :=
  toString ip.b0 ++ "." ++ toString ip.b1 ++ "." ++ toString ip.b2 ++ "." ++ toString ip.b3

/-- A DNS answer record: either an SRV record (`*dns.SRV`, with target,
priority, weight and 16-bit port), an A record (`*dns.A`, with an address), or
a record of any other type (skipped by the type switches in the source). -/
inductive RR where
  | srv (target : String) (priority weight port : Nat)
  | a (addr : IP4)
  | other
deriving DecidableEq, Repr

/-- A DNS question as set by `dns.Msg.SetQuestion`: a query name and a
query type. -/
structure Question where
  qname : String
  qtype : Nat
deriving DecidableEq, Repr

/-- Outcome of one `DnsClient.Exchange` call: a transport-level error, or a
parsed response carrying a response code and answer records. -/
inductive ExchangeResult where
  | failure (msg : String)
  | response (rcode : Nat) (answer : List RR)
deriving DecidableEq, Repr

/-- The DNS transport collaborator: `Exchange` as a function of the question
and the server address. -/
def DnsClient := Question → String → ExchangeResult

/-- The error values produced by the discovery operations.  In Go all of them
are plain `error` values; the constructors record which `return` produced
them: `transport` propagates the error of `client.Exchange`, `queryFailed` is
`Service lookup: DNS query did not succeed`, `noARecord` is
`Service lookup: No A entry in DNS response`, and `noInstance` is
`Service lookup: No SRV entry in DNS response`. -/
inductive DiscoveryError where
  | transport (msg : String)
  | queryFailed
  | noARecord
  | noInstance
deriving DecidableEq, Repr

/-- Structure `ServiceInstance` from discovery.go: a resolved endpoint. -/
structure ServiceInstance where
  Ip : String
  Port : String
deriving DecidableEq, Repr

/-- The resolver state `consulServiceDiscovery` from discovery.go.  The
`client` field of the Go struct is the transport collaborator and is passed
to the operations as an explicit `DnsClient` argument; the Go map
`targetCache` is modelled as an association list with map-update semantics. -/
structure consulServiceDiscovery where
  dnsServer : String
  dnsSearch : String
  targetCache : List (String × IP4)
deriving DecidableEq, Repr

/-- Lookup in the target cache, modelling `s.targetCache[target]`. -/
def cacheLookup : List (String × IP4) → String → Option IP4
  | [], _ => none
  | (k, v) :: rest, t => if k = t then some v else cacheLookup rest t

/-- Map assignment `s.targetCache[target] = ip`: replaces the value at an
existing key, otherwise appends a new entry. -/
def cacheStore : List (String × IP4) → String → IP4 → List (String × IP4)
  | [], t, ip => [(t, ip)]
  | (k, v) :: rest, t, ip =>
    if k = t then (t, ip) :: rest else (k, v) :: cacheStore rest t ip

/-- Function `dns.Fqdn` from miekg/dns: appends the trailing dot when absent (modelled
for names without escape sequences). -/
def Fqdn (s : String) : String :=
  if s.data.getLast? = some '.' then s else s ++ "."

/-- The Go slice `s[:len(s)-1]` as used on `srv.Target`: `none` models the
index-out-of-range panic on the empty string, otherwise the last character is
removed. -/
def dropLastChar (s : String) : Option String :=
  if s.data.isEmpty then none else some (String.mk s.data.dropLast)

/-- Scan of the answer records for the first A record, modelling the
`for ... range r.Answer` loop with the `a.(*dns.A)` type assertion in
`resolveTarget`. -/
def firstA : List RR → Option IP4
  | [] => none
  | RR.a addr :: _ => some addr
  | _ :: rest => firstA rest

/-- Method `resolveTarget` from discovery.go: cache lookup, then on a miss an A-type
query against the pinned server, storing the first A record of a successful
answer.  Returns the result, the updated state, and the questions sent. -/
def resolveTarget (client : DnsClient) (s : consulServiceDiscovery) (target : String) :
    Except DiscoveryError IP4 × consulServiceDiscovery × List Question :=
  match cacheLookup s.targetCache target with
  | some val => (Except.ok val, s, [])
  | none =>
    let fqdn := Fqdn target
    let q : Question := ⟨fqdn, TypeA⟩
    match client q s.dnsServer with
    | ExchangeResult.failure msg => (Except.error (DiscoveryError.transport msg), s, [q])
    | ExchangeResult.response rcode answer =>
      if rcode ≠ RcodeSuccess then
        (Except.error DiscoveryError.queryFailed, s, [q])
      else
        match firstA answer with
        | some addr =>
          (Except.ok addr,
           { s with targetCache := cacheStore s.targetCache target addr }, [q])
        | none => (Except.error DiscoveryError.noARecord, s, [q])

/-- The `for ... range r.Answer` loop of `DiscoverAllServiceInstances`: for
each SRV record, strip the trailing character of the target (a panic on an
empty target makes the whole loop `none`), resolve it, and on success append
a `ServiceInstance`; failures are skipped.  Returns the accumulated
instances, the final state and the questions sent. -/
def processAnswers (client : DnsClient) (s : consulServiceDiscovery) :
    List RR → Option (List ServiceInstance × consulServiceDiscovery × List Question)
  | [] => some ([], s, [])
  | RR.srv target _prio _weight port :: rest =>
    match dropLastChar target with
    | none => none
    | some tgt =>
      let out := resolveTarget client s tgt
      match processAnswers client out.2.1 rest with
      | none => none
      | some (insts, s'', qs) =>
        match out.1 with
        | Except.ok targetIp =>
          some ({ Ip := targetIp.render, Port := toString port } :: insts, s'', out.2.2 ++ qs)
        | Except.error _ => some (insts, s'', out.2.2 ++ qs)
  | _ :: rest => processAnswers client s rest

/-- Method `DiscoverAllServiceInstances` from discovery.go.  The Go function returns
a slice and an error; this is modelled as the pair of the instance list and an
optional error (the `nil, err` returns of the source become `([], some e)`).
The outer `Option` is `none` exactly when the source panics, and the final
component lists the questions sent. -/
def DiscoverAllServiceInstances (client : DnsClient) (s : consulServiceDiscovery)
    (serviceName : String) :
    Option ((List ServiceInstance × Option DiscoveryError) × consulServiceDiscovery × List Question) :=
  let fqdn := Fqdn (serviceName ++ s.dnsSearch)
  let q : Question := ⟨fqdn, TypeSRV⟩
  match client q s.dnsServer with
  | ExchangeResult.failure msg =>
    some (([], some (DiscoveryError.transport msg)), s, [q])
  | ExchangeResult.response rcode answer =>
    if rcode ≠ RcodeSuccess then
      some (([], some DiscoveryError.queryFailed), s, [q])
    else
      match processAnswers client s answer with
      | none => none
      | some (insts, s', qs) => some ((insts, none), s', q :: qs)

/-- Method `DiscoverService` from discovery.go: delegates to
`DiscoverAllServiceInstances`, propagates its error with empty ip and port,
returns `noInstance` with empty ip and port on an empty list, and otherwise
the first instance. -/
def DiscoverService (client : DnsClient) (s : consulServiceDiscovery)
    (serviceName : String) :
    Option ((String × String × Option DiscoveryError) × consulServiceDiscovery × List Question) :=
  match DiscoverAllServiceInstances client s serviceName with
  | none => none
  | some ((_, some e), s', qs) => some (("", "", some e), s', qs)
  | some ((insts, none), s', qs) =>
    match insts with
    | [] => some (("", "", some DiscoveryError.noInstance), s', qs)
    | inst :: _ => some ((inst.Ip, inst.Port, none), s', qs)

/-- The error values of `NewConsulServiceDiscovery`: a malformed server
address (the error of `net.SplitHostPort`, the spec's ConfigurationError), a
failing forward lookup (the error of `net.LookupHost`), or a lookup that
returned zero addresses (`No service discovery host could be resolved`); the
spec groups the latter two as ResolutionError. -/
inductive ConstructionError where
  | configuration (msg : String)
  | lookupFailed (msg : String)
  | noHostResolved
deriving DecidableEq, Repr

/-- Function `net.JoinHostPort`: brackets the host when it contains a colon. -/
def JoinHostPort (host port : String) : String :=
  if host.data.contains ':' then "[" ++ host ++ "]:" ++ port else host ++ ":" ++ port

/-- Constructor `NewConsulServiceDiscovery` from discovery.go.  The standard-library
collaborators `net.SplitHostPort`, `net.ParseIP` and `net.LookupHost` are
external and passed as explicit function parameters.  Returns the
construction result together with the list of hostnames passed to
`net.LookupHost` (so that the absence of a lookup can be stated). -/
def NewConsulServiceDiscovery
    (splitHostPort : String → Except String (String × String))
    (parseIP : String → Option IP4)
    (lookupHost : String → Except String (List String))
    (dnsServer : String) :
    Except ConstructionError consulServiceDiscovery × List String :=
  match splitHostPort dnsServer with
  | Except.error msg => (Except.error (ConstructionError.configuration msg), [])
  | Except.ok (host, port) =>
    match parseIP host with
    | some _ =>
      (Except.ok
        { dnsServer := dnsServer, dnsSearch := ".service.consul", targetCache := [] }, [])
    | none =>
      match lookupHost host with
      | Except.error msg => (Except.error (ConstructionError.lookupFailed msg), [host])
      | Except.ok [] => (Except.error ConstructionError.noHostResolved, [host])
      | Except.ok (addr :: _) =>
        (Except.ok
          { dnsServer := JoinHostPort addr port, dnsSearch := ".service.consul",
            targetCache := [] }, [host])

/-- The SRV records of an answer, in order, as (target, port) pairs — the
records the `a.(*dns.SRV)` type assertion of the loop selects. -/
def srvRecords : List RR → List (String × Nat)
  | [] => []
  | RR.srv target _ _ port :: rest => (target, port) :: srvRecords rest
  | _ :: rest => srvRecords rest

/-- The address an A-record query for `t` against `server` yields: the first
A record of a successful response, `none` on transport failure, non-success
code or absent A record. -/
def oracleA (client : DnsClient) (server t : String) : Option IP4 :=
  match client ⟨Fqdn t, TypeA⟩ server with
  | ExchangeResult.failure _ => none
  | ExchangeResult.response rcode answer =>
    if rcode ≠ RcodeSuccess then none else firstA answer

/-- The address `resolveTarget` yields for `t` from a given cache: the cached
address on a hit, otherwise the oracle's answer. -/
def resolveVal (client : DnsClient) (server : String) (cache : List (String × IP4))
    (t : String) : Option IP4 :=
  match cacheLookup cache t with
  | some v => some v
  | none => oracleA client server t

/-- The instance one SRV record contributes, relative to a cache: `none` when
the stripped target does not resolve. -/
def instanceFor (client : DnsClient) (server : String) (cache : List (String × IP4))
    (tp : String × Nat) : Option ServiceInstance :=
  match dropLastChar tp.1 with
  | none => none
  | some t =>
    (resolveVal client server cache t).map
      (fun ip => { Ip := ip.render, Port := toString tp.2 })

/-- The instances the answer loop produces, relative to the cache at loop
entry: one instance per SRV record whose stripped target resolves. -/
def instancesOf (client : DnsClient) (server : String) (cache : List (String × IP4))
    (answer : List RR) : List ServiceInstance :=
  (srvRecords answer).filterMap (instanceFor client server cache)

theorem cacheLookup_store_self (c : List (String × IP4)) (t : String) (ip : IP4) :
    cacheLookup (cacheStore c t ip) t = some ip := by
  induction c with
  | nil => simp [cacheStore, cacheLookup]
  | cons hd tl ih =>
    obtain ⟨k, v⟩ := hd
    by_cases hk : k = t
    · simp [cacheStore, hk, cacheLookup]
    · simp [cacheStore, hk, cacheLookup, ih]

theorem cacheLookup_store_ne (c : List (String × IP4)) (t u : String) (ip : IP4)
    (h : u ≠ t) : cacheLookup (cacheStore c t ip) u = cacheLookup c u := by
  induction c with
  | nil => simp [cacheStore, cacheLookup, Ne.symm h]
  | cons hd tl ih =>
    obtain ⟨k, v⟩ := hd
    by_cases hk : k = t
    · subst hk
      simp [cacheStore, cacheLookup, h, Ne.symm h]
    · simp [cacheStore, hk, cacheLookup, ih]

theorem resolveVal_store (client : DnsClient) (server : String)
    (cache : List (String × IP4)) (t : String) (ip : IP4)
    (hmiss : cacheLookup cache t = none) (hval : oracleA client server t = some ip) :
    ∀ u, resolveVal client server (cacheStore cache t ip) u =
      resolveVal client server cache u := by
  intro u
  by_cases hu : u = t
  · subst hu
    simp [resolveVal, cacheLookup_store_self, hmiss, hval]
  · simp [resolveVal, cacheLookup_store_ne cache t u ip hu]

theorem mem_keys_cacheStore (c : List (String × IP4)) (t u : String) (ip : IP4) :
    u ∈ (cacheStore c t ip).map Prod.fst ↔ u ∈ c.map Prod.fst ∨ u = t := by
  induction c with
  | nil => simp [cacheStore]
  | cons hd tl ih =>
    obtain ⟨k, v⟩ := hd
    by_cases hk : k = t
    · subst hk
      simp [cacheStore]
      tauto
    · simp [cacheStore, hk, ih]
      tauto

theorem nodup_keys_cacheStore (c : List (String × IP4)) (t : String) (ip : IP4)
    (h : (c.map Prod.fst).Nodup) : ((cacheStore c t ip).map Prod.fst).Nodup := by
  induction c with
  | nil => simp [cacheStore]
  | cons hd tl ih =>
    obtain ⟨k, v⟩ := hd
    simp only [List.map_cons, List.nodup_cons] at h
    by_cases hk : k = t
    · subst hk
      simpa [cacheStore] using h
    · simp only [cacheStore, if_neg hk, List.map_cons, List.nodup_cons]
      refine ⟨?_, ih h.2⟩
      intro hmem
      rcases (mem_keys_cacheStore tl t k ip).1 hmem with hm | hm
      · exact h.1 hm
      · exact hk hm

theorem resolveTarget_hit (client : DnsClient) (s : consulServiceDiscovery)
    (t : String) (ip : IP4) (hm : cacheLookup s.targetCache t = some ip) :
    resolveTarget client s t = (Except.ok ip, s, []) := by
  simp [resolveTarget, hm]

theorem resolveTarget_miss_ok (client : DnsClient) (s : consulServiceDiscovery)
    (t : String) (ip : IP4)
    (hm : cacheLookup s.targetCache t = none)
    (ho : oracleA client s.dnsServer t = some ip) :
    resolveTarget client s t =
      (Except.ok ip, { s with targetCache := cacheStore s.targetCache t ip },
       [⟨Fqdn t, TypeA⟩]) := by
  unfold oracleA at ho
  unfold resolveTarget
  rw [hm]
  dsimp only
  cases hx : client ⟨Fqdn t, TypeA⟩ s.dnsServer with
  | failure msg => rw [hx] at ho; simp at ho
  | response rcode answer =>
    rw [hx] at ho
    by_cases hr : rcode = RcodeSuccess
    · simp [hr] at ho
      simp [hr, ho]
    · simp [hr] at ho

theorem resolveTarget_miss_fail (client : DnsClient) (s : consulServiceDiscovery)
    (t : String)
    (hm : cacheLookup s.targetCache t = none)
    (ho : oracleA client s.dnsServer t = none) :
    ∃ e, resolveTarget client s t = (Except.error e, s, [⟨Fqdn t, TypeA⟩]) := by
  unfold oracleA at ho
  unfold resolveTarget
  rw [hm]
  dsimp only
  cases hx : client ⟨Fqdn t, TypeA⟩ s.dnsServer with
  | failure msg => exact ⟨DiscoveryError.transport msg, by simp⟩
  | response rcode answer =>
    rw [hx] at ho
    by_cases hr : rcode = RcodeSuccess
    · simp [hr] at ho
      exact ⟨DiscoveryError.noARecord, by simp [hr, ho]⟩
    · exact ⟨DiscoveryError.queryFailed, by simp [hr]⟩

theorem resolveTarget_step (client : DnsClient) (s : consulServiceDiscovery) (t : String) :
    (resolveTarget client s t).2.1.dnsServer = s.dnsServer ∧
    (resolveTarget client s t).2.1.dnsSearch = s.dnsSearch ∧
    (∀ u, resolveVal client s.dnsServer (resolveTarget client s t).2.1.targetCache u =
      resolveVal client s.dnsServer s.targetCache u) ∧
    (∀ u v, cacheLookup s.targetCache u = some v →
      cacheLookup (resolveTarget client s t).2.1.targetCache u = some v) ∧
    ((s.targetCache.map Prod.fst).Nodup →
      ((resolveTarget client s t).2.1.targetCache.map Prod.fst).Nodup) ∧
    (∀ ip, resolveVal client s.dnsServer s.targetCache t = some ip →
      (resolveTarget client s t).1 = Except.ok ip) ∧
    (resolveVal client s.dnsServer s.targetCache t = none →
      ∃ e, (resolveTarget client s t).1 = Except.error e) := by
  cases hm : cacheLookup s.targetCache t with
  | some ip0 =>
    rw [resolveTarget_hit client s t ip0 hm]
    have hrv : resolveVal client s.dnsServer s.targetCache t = some ip0 := by
      simp [resolveVal, hm]
    refine ⟨rfl, rfl, fun u => rfl, fun u v h => h, id, ?_, ?_⟩
    · intro ip hv
      rw [hrv] at hv
      cases Option.some.inj hv
      rfl
    · intro hv
      rw [hrv] at hv
      cases hv
  | none =>
    cases ho : oracleA client s.dnsServer t with
    | some ip0 =>
      rw [resolveTarget_miss_ok client s t ip0 hm ho]
      have hrv : resolveVal client s.dnsServer s.targetCache t = some ip0 := by
        simp [resolveVal, hm, ho]
      refine ⟨rfl, rfl, ?_, ?_, ?_, ?_, ?_⟩
      · exact resolveVal_store client s.dnsServer s.targetCache t ip0 hm ho
      · intro u v h
        have hut : u ≠ t := by
          intro he
          rw [he, hm] at h
          cases h
        rw [show ({ s with targetCache := cacheStore s.targetCache t ip0 } :
              consulServiceDiscovery).targetCache = cacheStore s.targetCache t ip0 from rfl]
        rw [cacheLookup_store_ne s.targetCache t u ip0 hut]
        exact h
      · exact fun hn => nodup_keys_cacheStore s.targetCache t ip0 hn
      · intro ip hv
        rw [hrv] at hv
        cases Option.some.inj hv
        rfl
      · intro hv
        rw [hrv] at hv
        cases hv
    | none =>
      obtain ⟨e, he⟩ := resolveTarget_miss_fail client s t hm ho
      rw [he]
      have hrv : resolveVal client s.dnsServer s.targetCache t = none := by
        simp [resolveVal, hm, ho]
      refine ⟨rfl, rfl, fun u => rfl, fun u v h => h, id, ?_, fun _ => ⟨e, rfl⟩⟩
      intro ip hv
      rw [hrv] at hv
      cases hv

theorem processAnswers_spec (client : DnsClient) (server : String)
    (cache0 : List (String × IP4)) (answer : List RR) :
    ∀ (s : consulServiceDiscovery),
      s.dnsServer = server →
      (∀ u, resolveVal client server s.targetCache u = resolveVal client server cache0 u) →
      (∀ tp ∈ srvRecords answer, tp.1.data ≠ []) →
      ∃ s' qs,
        processAnswers client s answer =
          some (instancesOf client server cache0 answer, s', qs) ∧
        s'.dnsServer = server ∧
        s'.dnsSearch = s.dnsSearch ∧
        (∀ u, resolveVal client server s'.targetCache u = resolveVal client server cache0 u) ∧
        (∀ u v, cacheLookup s.targetCache u = some v → cacheLookup s'.targetCache u = some v) ∧
        ((s.targetCache.map Prod.fst).Nodup → (s'.targetCache.map Prod.fst).Nodup) := by
  induction answer with
  | nil =>
    intro s hs hinv _
    refine ⟨s, [], ?_, hs, rfl, hinv, fun u v h => h, id⟩
    simp [processAnswers, instancesOf, instanceFor, srvRecords]
  | cons head rest ih =>
    intro s hs hinv hne
    cases head with
    | a addr =>
      obtain ⟨s', qs, h1, h2, h3, h4, h5, h6⟩ :=
        ih s hs hinv (fun tp htp => hne tp (by simpa [srvRecords] using htp))
      exact ⟨s', qs, by simpa [processAnswers, instancesOf, instanceFor, srvRecords] using h1,
        h2, h3, h4, h5, h6⟩
    | other =>
      obtain ⟨s', qs, h1, h2, h3, h4, h5, h6⟩ :=
        ih s hs hinv (fun tp htp => hne tp (by simpa [srvRecords] using htp))
      exact ⟨s', qs, by simpa [processAnswers, instancesOf, instanceFor, srvRecords] using h1,
        h2, h3, h4, h5, h6⟩
    | srv target prio weight port =>
      have hne0 : target.data ≠ [] := by
        have := hne (target, port) (by simp [srvRecords])
        simpa using this
      have hd : dropLastChar target = some (String.mk target.data.dropLast) := by
        simp [dropLastChar, hne0]
      obtain ⟨step1, step2, step3, step4, step5, step6, step7⟩ :=
        resolveTarget_step client s (String.mk target.data.dropLast)
      rcases hout : resolveTarget client s (String.mk target.data.dropLast) with ⟨r, s1, qs1⟩
      rw [hout] at step1 step2 step3 step4 step5 step6 step7
      rw [hs] at step3 step6 step7
      have hs1 : s1.dnsServer = server := by
        simpa [hs] using step1
      have hinv1 : ∀ u, resolveVal client server s1.targetCache u =
          resolveVal client server cache0 u := by
        intro u
        have h3u := step3 u
        simp only [] at h3u
        rw [h3u, hinv u]
      obtain ⟨s', qs', hrest, h2, h3, h4, h5, h6⟩ :=
        ih s1 hs1 hinv1 (fun tp htp => hne tp (by simp [srvRecords]; exact Or.inr htp))
      cases hv : resolveVal client server cache0 (String.mk target.data.dropLast) with
      | some ip =>
        have hr : r = Except.ok ip := by
          have := step6 ip (by rw [hinv]; exact hv)
          simpa using this
        subst hr
        refine ⟨s', qs1 ++ qs', ?_, h2, by rw [h3]; simpa using step2,
          h4, ?_, ?_⟩
        · simp only [processAnswers, hd, hout, hrest]
          simp [instancesOf, instanceFor, srvRecords, hd, hv]
        · intro u v h
          exact h5 u v (by simpa using step4 u v h)
        · intro hn
          exact h6 (by simpa using step5 hn)
      | none =>
        obtain ⟨e, he⟩ := step7 (by rw [hinv]; exact hv)
        have hr : r = Except.error e := by simpa using he
        subst hr
        refine ⟨s', qs1 ++ qs', ?_, h2, by rw [h3]; simpa using step2,
          h4, ?_, ?_⟩
        · simp only [processAnswers, hd, hout, hrest]
          simp [instancesOf, instanceFor, srvRecords, hd, hv]
        · intro u v h
          exact h5 u v (by simpa using step4 u v h)
        · intro hn
          exact h6 (by simpa using step5 hn)

theorem filterMap_eq_map_of_forall {α β : Type} (f : α → Option β) (g : α → β) :
    ∀ (l : List α), (∀ x ∈ l, f x = some (g x)) → l.filterMap f = l.map g := by
  intro l
  induction l with
  | nil => intro _; rfl
  | cons x xs ih =>
    intro h
    rw [List.filterMap_cons, h x (by simp), List.map_cons,
      ih (fun y hy => h y (by simp [hy]))]

theorem processAnswers_noSrv (client : DnsClient) (answer : List RR) :
    srvRecords answer = [] →
    ∀ s, processAnswers client s answer = some ([], s, []) := by
  induction answer with
  | nil => intro _ s; simp [processAnswers]
  | cons head rest ih =>
    intro h s
    cases head with
    | srv t p w port => simp [srvRecords] at h
    | a addr => simpa [processAnswers] using ih (by simpa [srvRecords] using h) s
    | other => simpa [processAnswers] using ih (by simpa [srvRecords] using h) s

/-- C1: for every service name whose SRV query succeeds with N SRV answer
records, each of whose targets resolves successfully via an A-record lookup
(to the address `ipFor` assigns to the record), `DiscoverAllServiceInstances`
returns a list of exactly the N `ServiceInstance` values in SRV answer order,
where the i-th instance's ip is the rendering of the resolved address of the
i-th SRV target and its port is the decimal formatting of the i-th SRV
record's port field. -/
theorem C1_all_targets_resolve (client : DnsClient) (s : consulServiceDiscovery)
    (serviceName : String) (answer : List RR) (ipFor : String × Nat → IP4)
    (hsrv : client ⟨Fqdn (serviceName ++ s.dnsSearch), TypeSRV⟩ s.dnsServer =
      ExchangeResult.response RcodeSuccess answer)
    (hres : ∀ tp ∈ srvRecords answer, ∃ t, dropLastChar tp.1 = some t ∧
      resolveVal client s.dnsServer s.targetCache t = some (ipFor tp)) :
    ∃ s' qs,
      DiscoverAllServiceInstances client s serviceName =
        some (((srvRecords answer).map
          (fun tp => { Ip := (ipFor tp).render, Port := toString tp.2 }), none), s', qs) := by
  have hne : ∀ tp ∈ srvRecords answer, tp.1.data ≠ [] := by
    intro tp htp
    obtain ⟨t, h1, _⟩ := hres tp htp
    intro hd
    rw [dropLastChar, if_pos (by simp [hd])] at h1
    cases h1
  obtain ⟨s', qs, h1, _, _, _, _, _⟩ :=
    processAnswers_spec client s.dnsServer s.targetCache answer s rfl (fun u => rfl) hne
  have hio : instancesOf client s.dnsServer s.targetCache answer =
      (srvRecords answer).map
        (fun tp => { Ip := (ipFor tp).render, Port := toString tp.2 }) := by
    unfold instancesOf
    apply filterMap_eq_map_of_forall
    intro tp htp
    obtain ⟨t, h1, h2⟩ := hres tp htp
    unfold instanceFor
    rw [h1]
    dsimp only
    rw [h2]
    rfl
  refine ⟨s', ⟨Fqdn (serviceName ++ s.dnsSearch), TypeSRV⟩ :: qs, ?_⟩
  unfold DiscoverAllServiceInstances
  dsimp only
  rw [hsrv]
  dsimp only
  rw [if_neg (by simp)]
  rw [h1]
  dsimp only
  rw [hio]

/-- Answer records of the concrete scenario from the specification: two SRV
records advertising host1 (port 8080) and host2 (port 8081). -/
def exAnswer : List RR :=
  [RR.srv "host1.node.dc1.consul." 10 10 8080,
   RR.srv "host2.node.dc1.consul." 10 10 8081]

/-- Concrete DNS transport for the witnesses: answers the SRV query with
`exAnswer` and the two A-record queries with 10.0.0.1 and 10.0.0.2. -/
def exClient : DnsClient := fun q _ =>
  if q.qtype = TypeSRV then ExchangeResult.response 0 exAnswer
  else if q.qname = "host1.node.dc1.consul." then
    ExchangeResult.response 0 [RR.a ⟨10, 0, 0, 1⟩]
  else ExchangeResult.response 0 [RR.a ⟨10, 0, 0, 2⟩]

/-- Concrete resolver state for the witnesses: pinned server and empty cache. -/
def exState : consulServiceDiscovery :=
  ⟨"127.0.0.1:8600", ".service.consul", []⟩

/-- The address each SRV record of `exAnswer` resolves to. -/
def exIpFor : String × Nat → IP4 := fun tp =>
  if tp.1 = "host1.node.dc1.consul." then ⟨10, 0, 0, 1⟩ else ⟨10, 0, 0, 2⟩

/-- Witness for C1: in the concrete two-record scenario both targets resolve
and the result is the two instances in answer order. -/
theorem C1_witness :
    ∃ s' qs,
      DiscoverAllServiceInstances exClient exState "api" =
        some (((srvRecords exAnswer).map
          (fun tp => { Ip := (exIpFor tp).render, Port := toString tp.2 }), none), s', qs) :=
  C1_all_targets_resolve exClient exState "api" exAnswer exIpFor rfl
    (by
      intro tp htp
      have h2 : tp = ("host1.node.dc1.consul.", 8080) ∨
          tp = ("host2.node.dc1.consul.", 8081) := by
        simpa [exAnswer, srvRecords] using htp
      rcases h2 with rfl | rfl
      · exact ⟨"host1.node.dc1.consul", by decide, by decide⟩
      · exact ⟨"host2.node.dc1.consul", by decide, by decide⟩)

/-- C2: whenever `DiscoverAllServiceInstances` returns a non-nil error, the
returned instance list is empty, the error arose at the SRV-query stage
(a transport error or the non-success response-code error), and only the SRV
question was sent. -/
theorem C2_error_excludes_instances (client : DnsClient) (s : consulServiceDiscovery)
    (serviceName : String) (insts : List ServiceInstance) (e : DiscoveryError)
    (s' : consulServiceDiscovery) (qs : List Question)
    (h : DiscoverAllServiceInstances client s serviceName = some ((insts, some e), s', qs)) :
    insts = [] ∧
    ((∃ msg, e = DiscoveryError.transport msg) ∨ e = DiscoveryError.queryFailed) ∧
    (∀ q ∈ qs, q.qtype = TypeSRV) := by
  unfold DiscoverAllServiceInstances at h
  dsimp only at h
  cases hx : client ⟨Fqdn (serviceName ++ s.dnsSearch), TypeSRV⟩ s.dnsServer with
  | failure msg =>
    rw [hx] at h
    simp only [Option.some.injEq, Prod.mk.injEq] at h
    obtain ⟨⟨hi, he⟩, _, hq⟩ := h
    refine ⟨hi.symm, Or.inl ⟨msg, ?_⟩, ?_⟩
    · cases he
      rfl
    · intro q hq2
      rw [← hq] at hq2
      simp at hq2
      rw [hq2]
  | response rcode answer =>
    rw [hx] at h
    dsimp only at h
    by_cases hr : rcode = RcodeSuccess
    · rw [if_neg (by simp [hr])] at h
      cases hp : processAnswers client s answer with
      | none => rw [hp] at h; cases h
      | some out =>
        rw [hp] at h
        rcases out with ⟨insts0, s0, qs0⟩
        simp only [Option.some.injEq, Prod.mk.injEq] at h
        obtain ⟨⟨_, he⟩, _⟩ := h
        cases he
    · rw [if_pos (by simp [hr])] at h
      simp only [Option.some.injEq, Prod.mk.injEq] at h
      obtain ⟨⟨hi, he⟩, _, hq⟩ := h
      refine ⟨hi.symm, Or.inr ?_, ?_⟩
      · cases he
        rfl
      · intro q hq2
        rw [← hq] at hq2
        simp at hq2
        rw [hq2]

/-- Transport that fails every exchange, for the error-path witnesses. -/
def exFailClient : DnsClient := fun _ _ => ExchangeResult.failure "connection refused"

/-- Witness for C2: a transport failure on the SRV query yields the empty
list, a transport error, and only the SRV question. -/
theorem C2_witness :
    ([] : List ServiceInstance) = [] ∧
    ((∃ msg, DiscoveryError.transport "connection refused" = DiscoveryError.transport msg) ∨
      DiscoveryError.transport "connection refused" = DiscoveryError.queryFailed) ∧
    (∀ q ∈ [(⟨"api.service.consul.", TypeSRV⟩ : Question)], q.qtype = TypeSRV) :=
  C2_error_excludes_instances exFailClient exState "api" []
    (DiscoveryError.transport "connection refused") exState
    [⟨"api.service.consul.", TypeSRV⟩] (by decide)

theorem length_filterMap_add_countP {α β : Type} (f : α → Option β) :
    ∀ l : List α,
      (l.filterMap f).length + l.countP (fun x => (f x).isNone) = l.length := by
  intro l
  induction l with
  | nil => rfl
  | cons x xs ih =>
    rw [List.filterMap_cons, List.countP_cons]
    cases hf : f x with
    | none =>
      simp only [hf, Option.isNone_none, List.length_cons]
      simp
      omega
    | some b =>
      simp only [hf, Option.isNone_some, List.length_cons]
      simp
      omega

/-- C3: if the SRV query succeeds with N SRV records, all targets non-empty,
and exactly one record's stripped target fails A-record resolution, then
`DiscoverAllServiceInstances` returns exactly N-1 instances and no error. -/
theorem C3_one_failed_target (client : DnsClient) (s : consulServiceDiscovery)
    (serviceName : String) (answer : List RR)
    (hsrv : client ⟨Fqdn (serviceName ++ s.dnsSearch), TypeSRV⟩ s.dnsServer =
      ExchangeResult.response RcodeSuccess answer)
    (hne : ∀ tp ∈ srvRecords answer, tp.1.data ≠ [])
    (hcount : (srvRecords answer).countP (fun tp =>
      (resolveVal client s.dnsServer s.targetCache
        (String.mk tp.1.data.dropLast)).isNone) = 1) :
    ∃ insts s' qs,
      DiscoverAllServiceInstances client s serviceName =
        some ((insts, none), s', qs) ∧
      insts.length + 1 = (srvRecords answer).length := by
  obtain ⟨s', qs, h1, _, _, _, _, _⟩ :=
    processAnswers_spec client s.dnsServer s.targetCache answer s rfl (fun u => rfl) hne
  refine ⟨instancesOf client s.dnsServer s.targetCache answer, s',
    ⟨Fqdn (serviceName ++ s.dnsSearch), TypeSRV⟩ :: qs, ?_, ?_⟩
  · unfold DiscoverAllServiceInstances
    dsimp only
    rw [hsrv]
    dsimp only
    rw [if_neg (by simp)]
    rw [h1]
  · have hlen := length_filterMap_add_countP
      (instanceFor client s.dnsServer s.targetCache) (srvRecords answer)
    have hc : (srvRecords answer).countP (fun tp =>
        (instanceFor client s.dnsServer s.targetCache tp).isNone) =
        (srvRecords answer).countP (fun tp =>
          (resolveVal client s.dnsServer s.targetCache
            (String.mk tp.1.data.dropLast)).isNone) := by
      apply List.countP_congr
      intro tp htp
      have hd : dropLastChar tp.1 = some (String.mk tp.1.data.dropLast) := by
        simp [dropLastChar, hne tp htp]
      unfold instanceFor
      rw [hd]
      simp
    unfold instancesOf
    rw [hc, hcount] at hlen
    omega

/-- Transport in which host2's A query succeeds but has no A record, so one
of the two SRV targets fails resolution. -/
def exOneFailClient : DnsClient := fun q _ =>
  if q.qtype = TypeSRV then ExchangeResult.response 0 exAnswer
  else if q.qname = "host1.node.dc1.consul." then
    ExchangeResult.response 0 [RR.a ⟨10, 0, 0, 1⟩]
  else ExchangeResult.response 0 []

/-- Witness for C3: with two SRV records and host2 failing resolution, one
instance and no error come back. -/
theorem C3_witness :
    ∃ insts s' qs,
      DiscoverAllServiceInstances exOneFailClient exState "api" =
        some ((insts, none), s', qs) ∧
      insts.length + 1 = (srvRecords exAnswer).length :=
  C3_one_failed_target exOneFailClient exState "api" exAnswer (by decide)
    (by decide) (by decide)

/-- C5: if the SRV query succeeds but the answer holds zero SRV records,
`DiscoverAllServiceInstances` returns an empty list, no error and an
unchanged state, while `DiscoverService` returns empty ip and port with the
no-instance error. -/
theorem C5_zero_srv_records (client : DnsClient) (s : consulServiceDiscovery)
    (serviceName : String) (answer : List RR)
    (hsrv : client ⟨Fqdn (serviceName ++ s.dnsSearch), TypeSRV⟩ s.dnsServer =
      ExchangeResult.response RcodeSuccess answer)
    (hz : srvRecords answer = []) :
    DiscoverAllServiceInstances client s serviceName =
      some (([], none), s, [⟨Fqdn (serviceName ++ s.dnsSearch), TypeSRV⟩]) ∧
    DiscoverService client s serviceName =
      some (("", "", some DiscoveryError.noInstance), s,
        [⟨Fqdn (serviceName ++ s.dnsSearch), TypeSRV⟩]) := by
  have hall : DiscoverAllServiceInstances client s serviceName =
      some (([], none), s, [⟨Fqdn (serviceName ++ s.dnsSearch), TypeSRV⟩]) := by
    unfold DiscoverAllServiceInstances
    dsimp only
    rw [hsrv]
    dsimp only
    rw [if_neg (by simp)]
    rw [processAnswers_noSrv client answer hz s]
  refine ⟨hall, ?_⟩
  unfold DiscoverService
  rw [hall]

/-- Transport answering the SRV query with a success response that contains
only an A record, hence zero SRV records. -/
def exNoSrvClient : DnsClient := fun _ _ =>
  ExchangeResult.response 0 [RR.a ⟨1, 2, 3, 4⟩]

/-- Witness for C5 at a success response with zero SRV records. -/
theorem C5_witness :
    DiscoverAllServiceInstances exNoSrvClient exState "api" =
      some (([], none), exState, [⟨"api.service.consul.", TypeSRV⟩]) ∧
    DiscoverService exNoSrvClient exState "api" =
      some (("", "", some DiscoveryError.noInstance), exState,
        [⟨"api.service.consul.", TypeSRV⟩]) := by
  have h := C5_zero_srv_records exNoSrvClient exState "api"
    [RR.a ⟨1, 2, 3, 4⟩] (by decide) (by decide)
  exact ⟨by rw [h.1]; decide, by rw [h.2]; decide⟩

/-- C6: a transport failure on the SRV query makes
`DiscoverAllServiceInstances` return the propagated transport error at once,
with no instances, an unchanged state, and the single SRV question as the
only transport exchange (so no retry and zero A-record queries); a success
exchange with a non-success response code likewise returns the query-failed
error with no instances and zero A-record queries. -/
theorem C6_srv_stage_errors (client : DnsClient) (s : consulServiceDiscovery)
    (serviceName : String) :
    (∀ msg, client ⟨Fqdn (serviceName ++ s.dnsSearch), TypeSRV⟩ s.dnsServer =
        ExchangeResult.failure msg →
      DiscoverAllServiceInstances client s serviceName =
        some (([], some (DiscoveryError.transport msg)), s,
          [⟨Fqdn (serviceName ++ s.dnsSearch), TypeSRV⟩]) ∧
      ∀ q ∈ [(⟨Fqdn (serviceName ++ s.dnsSearch), TypeSRV⟩ : Question)],
        q.qtype ≠ TypeA) ∧
    (∀ rcode answer,
      client ⟨Fqdn (serviceName ++ s.dnsSearch), TypeSRV⟩ s.dnsServer =
        ExchangeResult.response rcode answer →
      rcode ≠ RcodeSuccess →
      DiscoverAllServiceInstances client s serviceName =
        some (([], some DiscoveryError.queryFailed), s,
          [⟨Fqdn (serviceName ++ s.dnsSearch), TypeSRV⟩]) ∧
      ∀ q ∈ [(⟨Fqdn (serviceName ++ s.dnsSearch), TypeSRV⟩ : Question)],
        q.qtype ≠ TypeA) := by
  constructor
  · intro msg hx
    constructor
    · unfold DiscoverAllServiceInstances
      dsimp only
      rw [hx]
    · intro q hq
      simp at hq
      rw [hq]
      exact (by decide : TypeSRV ≠ TypeA)
  · intro rcode answer hx hr
    constructor
    · unfold DiscoverAllServiceInstances
      dsimp only
      rw [hx]
      dsimp only
      rw [if_pos (by simp [hr])]
    · intro q hq
      simp at hq
      rw [hq]
      exact (by decide : TypeSRV ≠ TypeA)

/-- Transport answering every exchange with the NXDOMAIN response code. -/
def exRefusedClient : DnsClient := fun _ _ => ExchangeResult.response 3 []

/-- Witness for C6: the transport-failure case at the failing transport and
the non-success-code case at the NXDOMAIN transport. -/
theorem C6_witness :
    (DiscoverAllServiceInstances exFailClient exState "api" =
      some (([], some (DiscoveryError.transport "connection refused")), exState,
        [⟨"api.service.consul.", TypeSRV⟩]) ∧
      ∀ q ∈ [(⟨"api.service.consul.", TypeSRV⟩ : Question)], q.qtype ≠ TypeA) ∧
    (DiscoverAllServiceInstances exRefusedClient exState "api" =
      some (([], some DiscoveryError.queryFailed), exState,
        [⟨"api.service.consul.", TypeSRV⟩]) ∧
      ∀ q ∈ [(⟨"api.service.consul.", TypeSRV⟩ : Question)], q.qtype ≠ TypeA) := by
  constructor
  · have h := (C6_srv_stage_errors exFailClient exState "api").1
      "connection refused" (by decide)
    exact ⟨by rw [h.1]; decide, by decide⟩
  · have h := (C6_srv_stage_errors exRefusedClient exState "api").2
      3 [] (by decide) (by decide)
    exact ⟨by rw [h.1]; decide, by decide⟩

/-- C4: after a successful `resolveTarget` for a hostname, a second call for
the same hostname returns the stored address from the cache with no
transport exchange; and if the first call began on a cache miss, it issued
exactly the one A-record query, so the two calls together issue one query. -/
theorem C4_memoization (client : DnsClient) (s : consulServiceDiscovery)
    (t : String) (ip : IP4) (s' : consulServiceDiscovery) (qs : List Question)
    (h : resolveTarget client s t = (Except.ok ip, s', qs)) :
    resolveTarget client s' t = (Except.ok ip, s', []) ∧
    (cacheLookup s.targetCache t = none → qs = [⟨Fqdn t, TypeA⟩]) := by
  cases hm : cacheLookup s.targetCache t with
  | some ip0 =>
    rw [resolveTarget_hit client s t ip0 hm] at h
    simp only [Prod.mk.injEq, Except.ok.injEq] at h
    obtain ⟨h1, h2, h3⟩ := h
    subst h2
    subst h3
    cases h1
    refine ⟨resolveTarget_hit client s t _ hm, ?_⟩
    intro hc
    simp [hm] at hc
  | none =>
    cases ho : oracleA client s.dnsServer t with
    | some ip0 =>
      rw [resolveTarget_miss_ok client s t ip0 hm ho] at h
      simp only [Prod.mk.injEq, Except.ok.injEq] at h
      obtain ⟨h1, h2, h3⟩ := h
      subst h2
      subst h3
      cases h1
      refine ⟨?_, fun _ => rfl⟩
      exact resolveTarget_hit client _ t _ (cacheLookup_store_self s.targetCache t _)
    | none =>
      obtain ⟨e, he⟩ := resolveTarget_miss_fail client s t hm ho
      rw [he] at h
      simp at h

/-- Resolver state whose cache already holds host1's address. -/
def exStateCached : consulServiceDiscovery :=
  ⟨"127.0.0.1:8600", ".service.consul", [("host1.node.dc1.consul", ⟨10, 0, 0, 1⟩)]⟩

/-- Witness for C4: resolving host1 from an empty cache issues one A query,
and the repeat call answers from the cache with no query. -/
theorem C4_witness :
    resolveTarget exClient exStateCached "host1.node.dc1.consul" =
      (Except.ok ⟨10, 0, 0, 1⟩, exStateCached, []) ∧
    (cacheLookup exState.targetCache "host1.node.dc1.consul" = none →
      [(⟨"host1.node.dc1.consul.", TypeA⟩ : Question)] =
        [⟨Fqdn "host1.node.dc1.consul", TypeA⟩]) :=
  C4_memoization exClient exState "host1.node.dc1.consul" ⟨10, 0, 0, 1⟩
    exStateCached [⟨"host1.node.dc1.consul.", TypeA⟩] (by rfl)

theorem processAnswers_preserves (client : DnsClient) :
    ∀ (answer : List RR) (s : consulServiceDiscovery)
      (out : List ServiceInstance × consulServiceDiscovery × List Question),
      processAnswers client s answer = some out →
      (∀ u v, cacheLookup s.targetCache u = some v →
        cacheLookup out.2.1.targetCache u = some v) ∧
      ((s.targetCache.map Prod.fst).Nodup → (out.2.1.targetCache.map Prod.fst).Nodup) := by
  intro answer
  induction answer with
  | nil =>
    intro s out h
    simp only [processAnswers, Option.some.injEq] at h
    obtain rfl := h.symm
    exact ⟨fun u v hv => hv, id⟩
  | cons head rest ih =>
    intro s out h
    cases head with
    | a addr => exact ih s out (by simpa [processAnswers] using h)
    | other => exact ih s out (by simpa [processAnswers] using h)
    | srv target prio weight port =>
      simp only [processAnswers] at h
      cases hd : dropLastChar target with
      | none =>
        rw [hd] at h
        cases h
      | some tgt =>
        rw [hd] at h
        dsimp only at h
        obtain ⟨-, -, -, step4, step5, -, -⟩ := resolveTarget_step client s tgt
        rcases hout : resolveTarget client s tgt with ⟨r, s1, qs1⟩
        rw [hout] at h step4 step5
        dsimp only at h step4 step5
        cases hp : processAnswers client s1 rest with
        | none =>
          rw [hp] at h
          cases h
        | some triple =>
          rcases triple with ⟨insts1, s2, qs2⟩
          rw [hp] at h
          obtain ⟨hpre, hnod⟩ := ih s1 (insts1, s2, qs2) hp
          cases r with
          | ok ipr =>
            dsimp only at h
            obtain rfl := (Option.some.inj h).symm
            exact ⟨fun u v hv => hpre u v (step4 u v hv), fun hn => hnod (step5 hn)⟩
          | error e =>
            dsimp only at h
            obtain rfl := (Option.some.inj h).symm
            exact ⟨fun u v hv => hpre u v (step4 u v hv), fun hn => hnod (step5 hn)⟩

/-- C7: the target cache keeps at most one address per hostname (key
distinctness is preserved), an existing entry keeps its value across
`resolveTarget` and across `DiscoverAllServiceInstances` (first resolution
wins, never refreshed), and a resolution whose successful answer has no A
record stores nothing: the state is unchanged, the `noARecord` error is
returned, and an immediate repeat call issues the same A query again. -/
theorem C7_cache_first_wins (client : DnsClient) (s : consulServiceDiscovery)
    (t : String) :
    (∀ u v, cacheLookup s.targetCache u = some v →
      cacheLookup (resolveTarget client s t).2.1.targetCache u = some v) ∧
    ((s.targetCache.map Prod.fst).Nodup →
      ((resolveTarget client s t).2.1.targetCache.map Prod.fst).Nodup) ∧
    (∀ serviceName out,
      DiscoverAllServiceInstances client s serviceName = some out →
      ∀ u v, cacheLookup s.targetCache u = some v →
        cacheLookup out.2.1.targetCache u = some v) ∧
    (∀ answer, cacheLookup s.targetCache t = none →
      client ⟨Fqdn t, TypeA⟩ s.dnsServer = ExchangeResult.response RcodeSuccess answer →
      firstA answer = none →
      resolveTarget client s t =
        (Except.error DiscoveryError.noARecord, s, [⟨Fqdn t, TypeA⟩]) ∧
      resolveTarget client (resolveTarget client s t).2.1 t =
        (Except.error DiscoveryError.noARecord, s, [⟨Fqdn t, TypeA⟩])) := by
  obtain ⟨-, -, -, step4, step5, -, -⟩ := resolveTarget_step client s t
  refine ⟨step4, step5, ?_, ?_⟩
  · intro serviceName out h u v hv
    unfold DiscoverAllServiceInstances at h
    dsimp only at h
    cases hx : client ⟨Fqdn (serviceName ++ s.dnsSearch), TypeSRV⟩ s.dnsServer with
    | failure msg =>
      rw [hx] at h
      obtain rfl := (Option.some.inj h).symm
      exact hv
    | response rcode answer =>
      rw [hx] at h
      dsimp only at h
      by_cases hr : rcode = RcodeSuccess
      · rw [if_neg (by simp [hr])] at h
        cases hp : processAnswers client s answer with
        | none =>
          rw [hp] at h
          cases h
        | some triple =>
          rcases triple with ⟨insts1, s1, qs1⟩
          rw [hp] at h
          dsimp only at h
          obtain rfl := (Option.some.inj h).symm
          exact (processAnswers_preserves client answer s (insts1, s1, qs1) hp).1 u v hv
      · rw [if_pos (by simp [hr])] at h
        obtain rfl := (Option.some.inj h).symm
        exact hv
  · intro answer hm hx hfa
    have h1 : resolveTarget client s t =
        (Except.error DiscoveryError.noARecord, s, [⟨Fqdn t, TypeA⟩]) := by
      unfold resolveTarget
      rw [hm]
      dsimp only
      rw [hx]
      dsimp only
      rw [if_neg (by simp)]
      rw [hfa]
    refine ⟨h1, ?_⟩
    rw [h1]
    exact h1

/-- Witness for C7: the cached host1 entry survives resolving host2, and a
no-A-record answer for host2 leaves the state unchanged, errors, and
re-queries on the repeat call. -/
theorem C7_witness :
    cacheLookup
      (resolveTarget exClient exStateCached "host2.node.dc1.consul").2.1.targetCache
      "host1.node.dc1.consul" = some ⟨10, 0, 0, 1⟩ ∧
    (resolveTarget exOneFailClient exState "host2.node.dc1.consul" =
      (Except.error DiscoveryError.noARecord, exState,
        [⟨"host2.node.dc1.consul.", TypeA⟩]) ∧
     resolveTarget exOneFailClient
        (resolveTarget exOneFailClient exState "host2.node.dc1.consul").2.1
        "host2.node.dc1.consul" =
      (Except.error DiscoveryError.noARecord, exState,
        [⟨"host2.node.dc1.consul.", TypeA⟩])) :=
  ⟨(C7_cache_first_wins exClient exStateCached "host2.node.dc1.consul").1
      "host1.node.dc1.consul" ⟨10, 0, 0, 1⟩ (by decide),
   (C7_cache_first_wins exOneFailClient exState "host2.node.dc1.consul").2.2.2
      [] (by decide) (by rfl) (by rfl)⟩

/-- C10: whenever `DiscoverAllServiceInstances` returns with an error, and
whenever `resolveTarget` returns an error, the resolver state — in
particular the target cache — is exactly the state before the call. -/
theorem C10_state_unchanged_on_error (client : DnsClient)
    (s : consulServiceDiscovery) :
    (∀ serviceName out e,
      DiscoverAllServiceInstances client s serviceName = some out →
      out.1.2 = some e → out.2.1 = s) ∧
    (∀ t e s' qs,
      resolveTarget client s t = (Except.error e, s', qs) → s' = s) := by
  constructor
  · intro serviceName out e h he
    unfold DiscoverAllServiceInstances at h
    dsimp only at h
    cases hx : client ⟨Fqdn (serviceName ++ s.dnsSearch), TypeSRV⟩ s.dnsServer with
    | failure msg =>
      rw [hx] at h
      obtain rfl := (Option.some.inj h).symm
      rfl
    | response rcode answer =>
      rw [hx] at h
      dsimp only at h
      by_cases hr : rcode = RcodeSuccess
      · rw [if_neg (by simp [hr])] at h
        cases hp : processAnswers client s answer with
        | none =>
          rw [hp] at h
          cases h
        | some triple =>
          rcases triple with ⟨insts1, s1, qs1⟩
          rw [hp] at h
          dsimp only at h
          obtain rfl := (Option.some.inj h).symm
          simp at he
      · rw [if_pos (by simp [hr])] at h
        obtain rfl := (Option.some.inj h).symm
        rfl
  · intro t e s' qs h
    cases hm : cacheLookup s.targetCache t with
    | some ip0 =>
      rw [resolveTarget_hit client s t ip0 hm] at h
      simp at h
    | none =>
      cases ho : oracleA client s.dnsServer t with
      | some ip0 =>
        rw [resolveTarget_miss_ok client s t ip0 hm ho] at h
        simp at h
      | none =>
        obtain ⟨e0, he0⟩ := resolveTarget_miss_fail client s t hm ho
        rw [he0] at h
        simp only [Prod.mk.injEq] at h
        exact h.2.1.symm

/-- Witness for C10: the transport-failure path of the discovery call and the
no-A-record path of `resolveTarget` both leave the state untouched. -/
theorem C10_witness :
    ((([] : List ServiceInstance),
        some (DiscoveryError.transport "connection refused")),
      exState, [(⟨"api.service.consul.", TypeSRV⟩ : Question)]).2.1 = exState ∧
    exState = exState :=
  ⟨(C10_state_unchanged_on_error exFailClient exState).1 "api"
      ((([] : List ServiceInstance),
        some (DiscoveryError.transport "connection refused")),
        exState, [(⟨"api.service.consul.", TypeSRV⟩ : Question)])
      (DiscoveryError.transport "connection refused") (by decide) rfl,
   (C10_state_unchanged_on_error exOneFailClient exState).2
      "host2.node.dc1.consul" DiscoveryError.noARecord exState
      [⟨"host2.node.dc1.consul.", TypeA⟩] (by rfl)⟩

/-- Transport whose SRV answer carries an SRV record with an empty target
string, the input on which the source's slice expression panics. -/
def exPanicClient : DnsClient := fun q _ =>
  if q.qtype = TypeSRV then ExchangeResult.response 0 [RR.srv "" 0 0 80]
  else ExchangeResult.response 0 []

theorem dropLast_append_single {α : Type} (l : List α) (c : α) :
    (l ++ [c]).dropLast = l := by
  rw [List.dropLast_concat]

/-- C9: the slice `srv.Target[:len(srv.Target)-1]` is unguarded, so an SRV
answer record with an empty target makes `DiscoverAllServiceInstances`
panic (modelled as `none`); under the precondition that every SRV target is
non-empty and ends in a dot, the call does not panic and the slice yields
exactly the hostname without the trailing dot. -/
theorem C9_empty_target_panics :
    DiscoverAllServiceInstances exPanicClient exState "api" = none ∧
    (∀ (client : DnsClient) (s : consulServiceDiscovery) (serviceName : String)
        (answer : List RR),
      client ⟨Fqdn (serviceName ++ s.dnsSearch), TypeSRV⟩ s.dnsServer =
        ExchangeResult.response RcodeSuccess answer →
      (∀ tp ∈ srvRecords answer, ∃ u, tp.1 = u ++ ".") →
      DiscoverAllServiceInstances client s serviceName ≠ none ∧
      ∀ tp ∈ srvRecords answer,
        dropLastChar tp.1 = some (String.mk tp.1.data.dropLast) ∧
        String.mk tp.1.data.dropLast ++ "." = tp.1) := by
  constructor
  · decide
  · intro client s serviceName answer hx hdot
    have hne : ∀ tp ∈ srvRecords answer, tp.1.data ≠ [] := by
      intro tp htp
      obtain ⟨u, hu⟩ := hdot tp htp
      rw [hu]
      simp [String.data_append]
    obtain ⟨s', qs, h1, -, -, -, -, -⟩ :=
      processAnswers_spec client s.dnsServer s.targetCache answer s rfl
        (fun u => rfl) hne
    constructor
    · unfold DiscoverAllServiceInstances
      dsimp only
      rw [hx]
      dsimp only
      rw [if_neg (by simp)]
      rw [h1]
      simp
    · intro tp htp
      refine ⟨by simp [dropLastChar, hne tp htp], ?_⟩
      obtain ⟨u, hu⟩ := hdot tp htp
      rw [hu]
      have hdata : (u ++ ".").data = u.data ++ ['.'] := by
        rw [String.data_append]
      rw [hdata, dropLast_append_single]

/-- Witness for C9: in the dot-terminated two-record scenario the call does
not panic and each target is stripped of exactly its trailing dot. -/
theorem C9_witness :
    DiscoverAllServiceInstances exClient exState "api" ≠ none ∧
    ∀ tp ∈ srvRecords exAnswer,
      dropLastChar tp.1 = some (String.mk tp.1.data.dropLast) ∧
      String.mk tp.1.data.dropLast ++ "." = tp.1 :=
  C9_empty_target_panics.2 exClient exState "api" exAnswer (by rfl)
    (by
      intro tp htp
      have h2 : tp = ("host1.node.dc1.consul.", 8080) ∨
          tp = ("host2.node.dc1.consul.", 8081) := by
        simpa [exAnswer, srvRecords] using htp
      rcases h2 with rfl | rfl
      · exact ⟨"host1.node.dc1.consul", by decide⟩
      · exact ⟨"host2.node.dc1.consul", by decide⟩)

/-- C8: `NewConsulServiceDiscovery` returns the split error (the spec's
ConfigurationError) when the server address does not split into host and
port; with a literal-IP host it performs no lookup and keeps the address as
given; with a non-literal host it looks the host up once, failing with the
lookup error or the no-host-resolved error (the spec's ResolutionError) when
the lookup errors or returns zero addresses, and otherwise pins the first
returned address joined with the original port. -/
theorem C8_resolver_construction
    (splitHostPort : String → Except String (String × String))
    (parseIP : String → Option IP4)
    (lookupHost : String → Except String (List String))
    (dnsServer : String) :
    (∀ msg, splitHostPort dnsServer = Except.error msg →
      NewConsulServiceDiscovery splitHostPort parseIP lookupHost dnsServer =
        (Except.error (ConstructionError.configuration msg), [])) ∧
    (∀ host port ip, splitHostPort dnsServer = Except.ok (host, port) →
      parseIP host = some ip →
      NewConsulServiceDiscovery splitHostPort parseIP lookupHost dnsServer =
        (Except.ok ⟨dnsServer, ".service.consul", []⟩, [])) ∧
    (∀ host port msg, splitHostPort dnsServer = Except.ok (host, port) →
      parseIP host = none →
      lookupHost host = Except.error msg →
      NewConsulServiceDiscovery splitHostPort parseIP lookupHost dnsServer =
        (Except.error (ConstructionError.lookupFailed msg), [host])) ∧
    (∀ host port, splitHostPort dnsServer = Except.ok (host, port) →
      parseIP host = none →
      lookupHost host = Except.ok [] →
      NewConsulServiceDiscovery splitHostPort parseIP lookupHost dnsServer =
        (Except.error ConstructionError.noHostResolved, [host])) ∧
    (∀ host port addr rest, splitHostPort dnsServer = Except.ok (host, port) →
      parseIP host = none →
      lookupHost host = Except.ok (addr :: rest) →
      NewConsulServiceDiscovery splitHostPort parseIP lookupHost dnsServer =
        (Except.ok ⟨JoinHostPort addr port, ".service.consul", []⟩, [host])) := by
  refine ⟨?_, ?_, ?_, ?_, ?_⟩
  · intro msg h1
    unfold NewConsulServiceDiscovery
    rw [h1]
  · intro host port ip h1 h2
    unfold NewConsulServiceDiscovery
    rw [h1]
    dsimp only
    rw [h2]
  · intro host port msg h1 h2 h3
    unfold NewConsulServiceDiscovery
    rw [h1]
    dsimp only
    rw [h2]
    dsimp only
    rw [h3]
  · intro host port h1 h2 h3
    unfold NewConsulServiceDiscovery
    rw [h1]
    dsimp only
    rw [h2]
    dsimp only
    rw [h3]
  · intro host port addr rest h1 h2 h3
    unfold NewConsulServiceDiscovery
    rw [h1]
    dsimp only
    rw [h2]
    dsimp only
    rw [h3]

/-- Host-and-port splitter for the construction witness. -/
def exSplit : String → Except String (String × String) := fun a =>
  if a = "consul.local:8600" then Except.ok ("consul.local", "8600")
  else Except.error "missing port in address"

/-- Literal-IP parser for the construction witness: accepts no host, so the
forward lookup path is taken. -/
def exParseIP : String → Option IP4 := fun _ => none

/-- Forward lookup for the construction witness. -/
def exLookup : String → Except String (List String) := fun h =>
  if h = "consul.local" then Except.ok ["10.1.2.3", "10.1.2.4"]
  else Except.error "no such host"

/-- Witness for C8: a non-literal host is looked up once and the first
returned address is joined with the original port. -/
theorem C8_witness :
    NewConsulServiceDiscovery exSplit exParseIP exLookup "consul.local:8600" =
      (Except.ok ⟨JoinHostPort "10.1.2.3" "8600", ".service.consul", []⟩,
        ["consul.local"]) :=
  (C8_resolver_construction exSplit exParseIP exLookup "consul.local:8600").2.2.2.2
    "consul.local" "8600" "10.1.2.3" ["10.1.2.4"] (by rfl) rfl (by rfl)

end Servicediscovery
